import Mathlib

/-!
Verification development for the DEXA_3D_Scan extraction-and-synthesis core.

The Python source under backend/app is shallowly embedded here:

* models.py        — record types (pydantic models) with their field range
                     constraints (Field ge/le), which pydantic enforces at
                     construction time;
* dexa_parser.py   — parse_pdf_bytes and its helpers (_extract_first over the
                     METRIC_PATTERNS catalogue, _extract_region_metrics);
* avatar_generator.py — map_metrics_to_parameters;
* morphing.py      — interpolate_parameters.

Python floats are idealised as rationals (exact arithmetic); Python dicts are
embedded as association lists with unique keys in insertion order, with
assignment semantics matching dict item assignment (overwrite in place, append
new keys at the end).  The pdfplumber text-recovery step of parse_pdf_bytes is
the external document-decoding collaborator; the embedding takes the recovered
page text (the pages_text value of dexa_parser.py line 73) as input.
-/

deriving instance DecidableEq for Except

/-- Python dict with string keys, as an association list with unique keys in
insertion order. -/
abbrev PyDict (α : Type) := List (String × α)

/-- Python dict lookup: d[k] / `k in d` support. -/
def dictGet {α : Type} : PyDict α → String → Option α
  | [], _ => none
  | (k0, v0) :: rest, k => if k0 = k then some v0 else dictGet rest k

/-- Python dict item assignment d[k] = v: overwrites the value at an existing
key in place, appends a new key at the end. -/
def dictSet {α : Type} : PyDict α → String → α → PyDict α
  | [], k, v => [(k, v)]
  | (k0, v0) :: rest, k, v =>
    if k0 = k then (k0, v) :: rest else (k0, v0) :: dictSet rest k v

/-- Python `k in d` membership test. -/
def dictContains {α : Type} (d : PyDict α) (k : String) : Bool :=
  (dictGet d k).isSome

/-- models.py DexaRegionMetrics: per-region metrics, each field optional. -/
structure DexaRegionMetrics where
  fat_mass_kg : Option ℚ
  lean_mass_kg : Option ℚ
  bone_mass_kg : Option ℚ
  fat_percent : Option ℚ
deriving DecidableEq, Repr

/-- models.py DexaBodyMetrics: whole-body scalars, each field optional. -/
structure DexaBodyMetrics where
  height_cm : Option ℚ
  weight_kg : Option ℚ
  total_fat_percent : Option ℚ
  total_lean_mass_kg : Option ℚ
  total_bone_mass_kg : Option ℚ
  android_fat_percent : Option ℚ
  gynoid_fat_percent : Option ℚ
deriving DecidableEq, Repr

/-- models.py DexaScanData.  The three best-effort provenance fields
(patient_id, scan_date, device_model: all Optional[str], never validated and
read by no operation under claim) are omitted from the embedding. -/
structure DexaScanData where
  body_metrics : DexaBodyMetrics
  regions : PyDict DexaRegionMetrics
deriving DecidableEq, Repr

/-- models.py AvatarParameters (betas, scales, notes).  pydantic gives the
notes field the implicit default None. -/
structure AvatarParameters where
  betas : List ℚ
  scales : PyDict ℚ
  notes : Option String
deriving DecidableEq, Repr

/-- An optional field passes a pydantic `Field(None, ge=lo, le=hi)` constraint
when absent or within [lo, hi]. -/
def okRange (o : Option ℚ) (lo hi : ℚ) : Bool :=
  match o with
  | none => true
  | some v => decide (lo ≤ v ∧ v ≤ hi)

/-- An optional field passes a pydantic `Field(None, ge=lo)` constraint (no
upper limit) when absent or at least lo. -/
def okGe (o : Option ℚ) (lo : ℚ) : Bool :=
  match o with
  | none => true
  | some v => decide (lo ≤ v)

/-- pydantic validation of DexaRegionMetrics construction (models.py lines
14-17): fat/lean/bone masses ge=0 with no upper limit, fat_percent in
[0, 100]. -/
def validRegion (r : DexaRegionMetrics) : Bool :=
  okGe r.fat_mass_kg 0 &&
  okGe r.lean_mass_kg 0 &&
  okGe r.bone_mass_kg 0 &&
  okRange r.fat_percent 0 100

/-- pydantic validation of DexaBodyMetrics construction (models.py lines
23-29): height 50-250, weight 20-250, fat% 0-80, lean 0-200, bone 0-50,
android/gynoid fat% 0-100. -/
def validBody (b : DexaBodyMetrics) : Bool :=
  okRange b.height_cm 50 250 &&
  okRange b.weight_kg 20 250 &&
  okRange b.total_fat_percent 0 80 &&
  okRange b.total_lean_mass_kg 0 200 &&
  okRange b.total_bone_mass_kg 0 50 &&
  okRange b.android_fat_percent 0 100 &&
  okRange b.gynoid_fat_percent 0 100

/-! ### avatar_generator.py — map_metrics_to_parameters -/

/-- np.clip(x, lo, hi) = min(max(x, lo), hi). -/
def clip (x lo hi : ℚ) : ℚ := min (max x lo) hi

/-- One beta slot of map_metrics_to_parameters: a present source value v
contributes np.clip((v - center) / spread, -2.0, 2.0); an absent one leaves
the np.zeros(10) default 0.0. -/
def betaSlot (o : Option ℚ) (center spread : ℚ) : ℚ :=
  match o with
  | some v => clip ((v - center) / spread) (-2) 2
  | none => 0

/-- The region fat-percent read by map_metrics_to_parameters, guarded exactly
as in the source: `name in dexa_data.regions and
dexa_data.regions[name].fat_percent is not None`. -/
def region_fat (regions : PyDict DexaRegionMetrics) (name : String) : Option ℚ :=
  match dictGet regions name with
  | some r => r.fat_percent
  | none => none

/-- The 10 betas of avatar_generator.py lines 44-99, slot by slot:
0 total fat% (25, 15); 1 height (170, 20); 2 lean mass (50, 20);
3 weight (70, 20); 4 android fat% (30, 15); 5 gynoid fat% (35, 15);
6 arms fat% (25, 15); 7 legs fat% (30, 15); 8 trunk fat% (30, 15);
9 bone mass (3, 1.5). -/
def betasOf (d : DexaScanData) : List ℚ :=
  [ betaSlot d.body_metrics.total_fat_percent 25 15,
    betaSlot d.body_metrics.height_cm 170 20,
    betaSlot d.body_metrics.total_lean_mass_kg 50 20,
    betaSlot d.body_metrics.weight_kg 70 20,
    betaSlot (region_fat d.regions "android") 30 15,
    betaSlot (region_fat d.regions "gynoid") 35 15,
    betaSlot (region_fat d.regions "arms") 25 15,
    betaSlot (region_fat d.regions "legs") 30 15,
    betaSlot (region_fat d.regions "trunk") 30 15,
    betaSlot d.body_metrics.total_bone_mass_kg 3 (3/2) ]

/-- avatar_generator.py lines 105-111: when `body.height_cm and
body.weight_kg` is truthy (both present and nonzero), the derived overall
scale np.clip(0.8 + (bmi - 20) / 30.0, 0.7, 1.3) with
bmi = weight / (height / 100) ** 2; otherwise no derived scale. -/
def derived_overall (b : DexaBodyMetrics) : Option ℚ :=
  match b.height_cm, b.weight_kg with
  | some h, some w =>
    if h ≠ 0 ∧ w ≠ 0 then
      some (clip (4/5 + (w / ((h / 100) ^ 2) - 20) / 30) (7/10) (13/10))
    else none
  | _, _ => none

/-- avatar_generator.py line 102: `scales = body_scale_adjustments or {}`.
A missing or empty (falsy) argument yields a fresh empty dict; a non-empty
argument is aliased (see body_scale_adjustments_after). -/
def pyOrEmpty (ext : Option (PyDict ℚ)) : PyDict ℚ :=
  match ext with
  | none => []
  | some e => e

/-- avatar_generator.py map_metrics_to_parameters (lines 31-117), value
returned: the 10 betas, the scales dict after the derived "overall" entry is
assigned (line 111, overwriting any existing "overall"), and the notes
string of line 116. -/
def map_metrics_to_parameters (d : DexaScanData) (body_scale_adjustments : Option (PyDict ℚ)) :
    AvatarParameters :=
  let scales :=
    match derived_overall d.body_metrics with
    | some v => dictSet (pyOrEmpty body_scale_adjustments) "overall" v
    | none => pyOrEmpty body_scale_adjustments
  { betas := betasOf d
    scales := scales
    notes := some "SMPL-X parameters generated from DEXA metrics with improved mapping" }

/-- The value of the caller's body_scale_adjustments dict after
map_metrics_to_parameters returns.  Line 102 `scales = body_scale_adjustments
or {}` aliases a truthy (non-empty) dict argument, so the assignment
`scales["overall"] = overall_scale` of line 111 mutates the caller's dict;
a None or empty argument is replaced by a fresh dict and stays untouched. -/
def body_scale_adjustments_after (d : DexaScanData) (ext : Option (PyDict ℚ)) :
    Option (PyDict ℚ) :=
  match ext with
  | none => none
  | some e =>
    if e = [] then some e
    else
      match derived_overall d.body_metrics with
      | some v => some (dictSet e "overall" v)
      | none => some e

/-! ### morphing.py — interpolate_parameters -/

/-- np.linspace(0.0, 1.0, steps): steps evenly spaced samples, first 0.0 and
last 1.0; for steps >= 2 sample k is k / (steps - 1). -/
def linspace01 (n : ℕ) : List ℚ :=
  if n = 0 then []
  else if n = 1 then [0]
  else (List.range n).map (fun (k : ℕ) => (k : ℚ) / ((n : ℚ) - 1))

/-- morphing.py lines 29-30: start.scales.get(key, 1.0). -/
def scale_get (d : PyDict ℚ) (k : String) : ℚ :=
  (dictGet d k).getD 1

/-- Key list of `set(start.scales) | set(end.scales)` (iteration order of a
Python set is unspecified; this embedding fixes one order, and every theorem
about the resulting dict goes through lookups only). -/
def dedupKeys : List String → List String
  | [] => []
  | k :: rest =>
    let r := dedupKeys rest
    if k ∈ r then r else k :: r

/-- morphing.py line 31: the keys interpolated scales are built over. -/
def morph_scale_keys (s e : PyDict ℚ) : List String :=
  dedupKeys (s.map Prod.fst ++ e.map Prod.fst)

/-- The loop body of morphing.py lines 26-33 at interpolation position t:
betas start*(1-t) + end*t elementwise, scales interpolated per key of either
dict with missing keys defaulting to 1.0, and no notes (pydantic default
None). -/
def morphElem (start endp : AvatarParameters) (t : ℚ) : AvatarParameters :=
  { betas := List.zipWith (fun a b => a * (1 - t) + b * t) start.betas endp.betas
    scales := (morph_scale_keys start.scales endp.scales).map
      (fun k => (k, scale_get start.scales k * (1 - t) + scale_get endp.scales k * t))
    notes := none }

/-- morphing.py interpolate_parameters (lines 16-34): raises ValueError
("ShapeMismatch" in the specification) when the two beta vectors have
different shapes, otherwise returns the morphElem at each t of
np.linspace(0.0, 1.0, steps). -/
def interpolate_parameters (start endp : AvatarParameters) (steps : ℕ) :
    Except String (List AvatarParameters) :=
  if start.betas.length = endp.betas.length then
    .ok ((linspace01 steps).map (morphElem start endp))
  else .error "Parameter vectors must have identical shapes"

/-! ### dexa_parser.py — character-level helpers

The regular expressions of METRIC_PATTERNS and the line tokenizer are given a
direct executable semantics on character lists.  Each pattern is a chain of
literal words, whitespace classes and optional single characters followed by a
captured decimal number; none of these elements requires backtracking (the
optional characters and the digits are never whitespace), so the greedy
left-to-right matcher below coincides with the regex engine on them. -/

/-- Python regex \s on the ASCII whitespace characters. -/
def isSpaceChar (c : Char) : Bool :=
  c = ' ' || c = '\t' || c = '\n' || c = '\r' || c = '\x0b' || c = '\x0c'

/-- ASCII str.lower, as applied by the re.I patterns and tokens[0].lower(). -/
def lowerChar (c : Char) : Char :=
  if 'A' ≤ c && c ≤ 'Z' then Char.ofNat (c.toNat + 32) else c

/-- Python str.strip(): drop leading and trailing whitespace. -/
def stripChars (s : List Char) : List Char :=
  ((s.dropWhile isSpaceChar).reverse.dropWhile isSpaceChar).reverse

/-- Python str.splitlines restricted to the newline separator (pages_text is
assembled with "\n" joins in parse_pdf_bytes line 73). -/
def splitLinesAux : List Char → List Char → List (List Char)
  | [], cur => [cur.reverse]
  | '\n' :: rest, cur => cur.reverse :: splitLinesAux rest []
  | c :: rest, cur => splitLinesAux rest (c :: cur)

/-- Split a text into lines. -/
def splitLines (s : List Char) : List (List Char) :=
  splitLinesAux s []

/-- '0' <= c <= '9', the regex \d class. -/
def isDigitChar (c : Char) : Bool :=
  '0' ≤ c && c ≤ '9'

/-- Decimal digit run to a natural number. -/
def digitsToNat (ds : List Char) : ℕ :=
  ds.foldl (fun n c => 10 * n + (c.toNat - 48)) 0

/-- The exact rational a matched decimal literal (integer part digits, then
optionally a dot and fraction digits) denotes; Python's float() of the same
text is the IEEE rounding of this value. -/
def decimalVal (ip : List Char) (fp : List Char) : ℚ :=
  (digitsToNat ip : ℚ) + (digitsToNat fp : ℚ) / (10:ℚ) ^ fp.length

/-- re.split(r"\s{2,}|\t", line): a run of two or more whitespace characters,
or a single tab, separates tokens (dexa_parser.py line 48).  Fuel-driven so
that the definition is structurally recursive (the fuel covers the input
length, and every step consumes at least one character). -/
def splitTokensAux : ℕ → List Char → List Char → List String
  | 0, _, cur => [String.mk cur.reverse]
  | _ + 1, [], cur => [String.mk cur.reverse]
  | fuel + 1, c :: rest, cur =>
    if isSpaceChar c && (match rest with | r :: _ => isSpaceChar r | [] => false) then
      String.mk cur.reverse :: splitTokensAux fuel (rest.dropWhile isSpaceChar) []
    else if c = '\t' then
      String.mk cur.reverse :: splitTokensAux fuel rest []
    else
      splitTokensAux fuel rest (c :: cur)

/-- Tokenize one (already stripped) line. -/
def tokenize (line : List Char) : List String :=
  splitTokensAux (line.length + 1) line []

/-- re.findall(r"\d+(?:\.\d+)?", s): every maximal digit run, each together
with an immediately following dot-plus-digits fraction when present
(dexa_parser.py line 56).  Fuel-driven for structural recursion. -/
def scanNumbersAux : ℕ → List Char → List ℚ
  | 0, _ => []
  | _ + 1, [] => []
  | fuel + 1, c :: rest =>
    if isDigitChar c then
      let ip := c :: rest.takeWhile isDigitChar
      let rest1 := rest.dropWhile isDigitChar
      match rest1 with
      | '.' :: r2 =>
        if (match r2 with | d :: _ => isDigitChar d | [] => false) then
          decimalVal ip (r2.takeWhile isDigitChar) :: scanNumbersAux fuel (r2.dropWhile isDigitChar)
        else (digitsToNat ip : ℚ) :: scanNumbersAux fuel rest1
      | _ => (digitsToNat ip : ℚ) :: scanNumbersAux fuel rest1
    else scanNumbersAux fuel rest

/-- All decimal numbers of a string, left to right. -/
def scanNumbers (s : List Char) : List ℚ :=
  scanNumbersAux (s.length + 1) s

/-! ### dexa_parser.py — METRIC_PATTERNS -/

/-- Case-insensitive literal element of a pattern (lit given lowercased). -/
def matchCI (lit : List Char) (s : List Char) : Option (List Char) :=
  if (s.take lit.length).map lowerChar = lit then some (s.drop lit.length) else none

/-- \s+ : at least one whitespace character, consumed greedily. -/
def wsPlus (s : List Char) : Option (List Char) :=
  match s with
  | c :: rest => if isSpaceChar c then some (rest.dropWhile isSpaceChar) else none
  | [] => none

/-- \s* : any whitespace, consumed greedily. -/
def wsStar (s : List Char) : List Char :=
  s.dropWhile isSpaceChar

/-- An optional single character out of a class, e.g. %? or [:\-]? . -/
def optCharOf (cs : List Char) (s : List Char) : List Char :=
  match s with
  | c :: rest => if cs.contains c then rest else s
  | [] => s

/-- The captured group (\d+(?:\.\d+)?) at the current position: digits, then
optionally a dot followed by at least one digit, maximally consumed. -/
def matchNum (s : List Char) : Option ℚ :=
  match s with
  | c :: rest =>
    if isDigitChar c then
      let ip := c :: rest.takeWhile isDigitChar
      match rest.dropWhile isDigitChar with
      | '.' :: r2 =>
        if (match r2 with | d :: _ => isDigitChar d | [] => false) then
          some (decimalVal ip (r2.takeWhile isDigitChar))
        else some (digitsToNat ip : ℚ)
      | _ => some (digitsToNat ip : ℚ)
    else none
  | [] => none

/-- Shared tail \s*[:\-]?\s*(\d+(?:\.\d+)?) of every metric pattern. -/
def sepThenNum (s : List Char) : Option ℚ :=
  matchNum (wsStar (optCharOf [':', '-'] (wsStar s)))

/-- total\s+body\s+fat\s*%?\s*[:\-]?\s*(\d+(?:\.\d+)?) at one position. -/
def patTotalFat (s : List Char) : Option ℚ := do
  let s ← matchCI "total".data s
  let s ← wsPlus s
  let s ← matchCI "body".data s
  let s ← wsPlus s
  let s ← matchCI "fat".data s
  sepThenNum (optCharOf ['%'] (wsStar s))

/-- lean\s+mass\s*\(kg\)\s*[:\-]?\s*(\d+(?:\.\d+)?) at one position. -/
def patLeanMass (s : List Char) : Option ℚ := do
  let s ← matchCI "lean".data s
  let s ← wsPlus s
  let s ← matchCI "mass".data s
  let s ← matchCI "(kg)".data (wsStar s)
  sepThenNum s

/-- (?:bone\s+mass|bmd)\s*\(kg\)\s*[:\-]?\s*(\d+(?:\.\d+)?) at one position. -/
def patBoneMass (s : List Char) : Option ℚ := do
  let s1 ← (do
      let t ← matchCI "bone".data s
      let t ← wsPlus t
      matchCI "mass".data t) <|> matchCI "bmd".data s
  let s2 ← matchCI "(kg)".data (wsStar s1)
  sepThenNum s2

/-- weight\s*\(kg\)\s*[:\-]?\s*(\d+(?:\.\d+)?) at one position. -/
def patWeight (s : List Char) : Option ℚ := do
  let s ← matchCI "weight".data s
  let s ← matchCI "(kg)".data (wsStar s)
  sepThenNum s

/-- height\s*\(cm\)\s*[:\-]?\s*(\d+(?:\.\d+)?) at one position. -/
def patHeight (s : List Char) : Option ℚ := do
  let s ← matchCI "height".data s
  let s ← matchCI "(cm)".data (wsStar s)
  sepThenNum s

/-- android\s+fat\s*%?\s*[:\-]?\s*(\d+(?:\.\d+)?) at one position. -/
def patAndroidFat (s : List Char) : Option ℚ := do
  let s ← matchCI "android".data s
  let s ← wsPlus s
  let s ← matchCI "fat".data s
  sepThenNum (optCharOf ['%'] (wsStar s))

/-- gynoid\s+fat\s*%?\s*[:\-]?\s*(\d+(?:\.\d+)?) at one position. -/
def patGynoidFat (s : List Char) : Option ℚ := do
  let s ← matchCI "gynoid".data s
  let s ← wsPlus s
  let s ← matchCI "fat".data s
  sepThenNum (optCharOf ['%'] (wsStar s))

/-- re.search: try the pattern at each position, leftmost match wins. -/
def searchPat (pat : List Char → Option ℚ) : List Char → Option ℚ
  | [] => pat []
  | c :: rest =>
    match pat (c :: rest) with
    | some v => some v
    | none => searchPat pat rest

/-- dexa_parser.py _extract_first (lines 35-42): first match of the pattern
over the whole text, its captured group read as a number.  (The float()
conversion of a \d+(?:\.\d+)? capture never raises, so the ValueError branch
of the source is unreachable.) -/
def _extract_first (pat : List Char → Option ℚ) (text : String) : Option ℚ :=
  searchPat pat text.data

/-- The seven whole-body fields extracted through METRIC_PATTERNS
(dexa_parser.py lines 16-26 and 78-80). -/
def extractBody (text : String) : DexaBodyMetrics :=
  { height_cm := _extract_first patHeight text
    weight_kg := _extract_first patWeight text
    total_fat_percent := _extract_first patTotalFat text
    total_lean_mass_kg := _extract_first patLeanMass text
    total_bone_mass_kg := _extract_first patBoneMass text
    android_fat_percent := _extract_first patAndroidFat text
    gynoid_fat_percent := _extract_first patGynoidFat text }

/-- Python truthiness of an optional float: None and 0.0 are falsy. -/
def truthyOpt (o : Option ℚ) : Bool :=
  match o with
  | none => false
  | some v => decide (v ≠ 0)

/-- `any(body_kwargs.values())` of dexa_parser.py line 82. -/
def anyMetric (b : DexaBodyMetrics) : Bool :=
  truthyOpt b.height_cm || truthyOpt b.weight_kg || truthyOpt b.total_fat_percent ||
  truthyOpt b.total_lean_mass_kg || truthyOpt b.total_bone_mass_kg ||
  truthyOpt b.android_fat_percent || truthyOpt b.gynoid_fat_percent

/-! ### dexa_parser.py — region extraction and assembly -/

/-- dexa_parser.py line 28. -/
def REGION_NAMES : List String := ["arms", "legs", "trunk", "android", "gynoid"]

/-- needle occurs in hay (Python substring containment `region in key`). -/
def containsSub : List Char → List Char → Bool
  | needle, [] => needle.isEmpty
  | needle, c :: rest =>
    decide ((c :: rest).take needle.length = needle) || containsSub needle rest

/-- The region entry one tokenized line produces (dexa_parser.py lines 50-63):
the whole lowercased first token is the key when it contains a region name;
the numbers of the remaining tokens fill fat percent, lean mass, bone mass
positionally; a line without numbers produces nothing. -/
def line_entry (tokens : List String) : Option (String × DexaRegionMetrics) :=
  match tokens with
  | [] => none
  | t0 :: rest =>
    let key := String.mk (t0.data.map lowerChar)
    if REGION_NAMES.any (fun r => containsSub r.data key.data) then
      match scanNumbers (String.intercalate " " rest).data with
      | [] => none
      | v0 :: vs =>
        some (key,
          { fat_mass_kg := none
            lean_mass_kg := vs.get? 0
            bone_mass_kg := vs.get? 1
            fat_percent := some v0 })
    else none

/-- The per-line region entries of a text, in line order: strip each line,
drop blank lines, tokenize, and collect what each line produces. -/
def region_entries (text : String) : List (String × DexaRegionMetrics) :=
  (((splitLines text.data).map stripChars).filter (fun l => l ≠ [])).filterMap
    (fun l => line_entry (tokenize l))

/-- The two exceptions parse_pdf_bytes can leak: its own DexaParserError (with
the message raised), and a pydantic ValidationError from constructing a
metrics model whose fields violate their range constraints. -/
inductive PyFailure where
  | dexaParserError (msg : String)
  | validationError
deriving DecidableEq, Repr

/-- dexa_parser.py _extract_region_metrics (lines 45-64): fold the produced
entries into a dict (so a later line overwrites an earlier line with the same
key); constructing any entry that violates the DexaRegionMetrics constraints
raises a ValidationError out of the whole parse. -/
def _extract_region_metrics (text : String) : Except PyFailure (PyDict DexaRegionMetrics) :=
  if (region_entries text).all (fun e => validRegion e.2) then
    .ok ((region_entries text).foldl (fun d e => dictSet d e.1 e.2) [])
  else .error .validationError

/-- dexa_parser.py parse_pdf_bytes (lines 67-116) on the recovered page text
(the pdfplumber decoding of lines 72-73 is the external document-decoding
collaborator).  Raises DexaParserError "Unable to read text from PDF" on
blank text; extracts the seven whole-body fields; raises DexaParserError
"Failed to extract primary DEXA metrics" when `any(body_kwargs.values())` is
false; extracts the regions (which can raise a ValidationError); finally
constructs DexaScanData, whose DexaBodyMetrics(**body_kwargs) argument is
validated by pydantic at that point. -/
def parse_pdf_bytes (pages_text : String) : Except PyFailure DexaScanData :=
  if stripChars pages_text.data = [] then
    .error (.dexaParserError "Unable to read text from PDF")
  else
    let body := extractBody pages_text
    if anyMetric body then
      match _extract_region_metrics pages_text with
      | .error e => .error e
      | .ok regions =>
        if validBody body then .ok { body_metrics := body, regions := regions }
        else .error .validationError
    else .error (.dexaParserError "Failed to extract primary DEXA metrics")

/-- The DexaParserError message a parse outcome carries, if any. -/
def parserErrorMsg (r : Except PyFailure DexaScanData) : Option String :=
  match r with
  | .error (.dexaParserError m) => some m
  | _ => none

/-! ### Sample inputs shared by several theorems -/

/-- Body metrics with only height 170 cm and weight 70 kg. -/
def bodyHW : DexaBodyMetrics :=
  { height_cm := some 170, weight_kg := some 70, total_fat_percent := none,
    total_lean_mass_kg := none, total_bone_mass_kg := none,
    android_fat_percent := none, gynoid_fat_percent := none }

/-- Scan record with height and weight and no regions. -/
def recHW : DexaScanData := { body_metrics := bodyHW, regions := [] }

/-- Body metrics with every field absent. -/
def emptyBodyMetrics : DexaBodyMetrics :=
  { height_cm := none, weight_kg := none, total_fat_percent := none,
    total_lean_mass_kg := none, total_bone_mass_kg := none,
    android_fat_percent := none, gynoid_fat_percent := none }

/-- Scan record with every metric and region absent. -/
def emptyRecord : DexaScanData := { body_metrics := emptyBodyMetrics, regions := [] }

/-- The region entry parsed from the line "Arms\t20" (fat percent 20). -/
def armsFat20 : DexaRegionMetrics :=
  { fat_mass_kg := none, lean_mass_kg := none, bone_mass_kg := none, fat_percent := some 20 }

/-- The region entry parsed from the line "Android Region\t35". -/
def androidRegion35 : DexaRegionMetrics :=
  { fat_mass_kg := none, lean_mass_kg := none, bone_mass_kg := none, fat_percent := some 35 }

/-- Slot index to the source field it reads (the mapping table of
avatar_generator.py lines 44-99, also spec section 4.3). -/
def slotSource (d : DexaScanData) : ℕ → Option ℚ
  | 0 => d.body_metrics.total_fat_percent
  | 1 => d.body_metrics.height_cm
  | 2 => d.body_metrics.total_lean_mass_kg
  | 3 => d.body_metrics.weight_kg
  | 4 => region_fat d.regions "android"
  | 5 => region_fat d.regions "gynoid"
  | 6 => region_fat d.regions "arms"
  | 7 => region_fat d.regions "legs"
  | 8 => region_fat d.regions "trunk"
  | _ => d.body_metrics.total_bone_mass_kg

/-- One-coefficient parameter vector. -/
def vec1 : AvatarParameters := { betas := [0], scales := [], notes := none }

/-- Two-coefficient parameter vector. -/
def vec2 : AvatarParameters := { betas := [0, 1], scales := [], notes := none }

/-- A parameter vector carrying a notes string (as synthesised vectors do). -/
def selfNoted : AvatarParameters := { betas := [0], scales := [], notes := some "from DEXA" }

/-- A notes-free parameter vector with a scale override. -/
def selfScaled : AvatarParameters := { betas := [1], scales := [("arms", 2)], notes := none }

/-- Morph start vector with an overall override. -/
def morphA : AvatarParameters := { betas := [0, 2], scales := [("overall", 2)], notes := none }

/-- Morph end vector. -/
def morphB : AvatarParameters := { betas := [2, 4], scales := [], notes := none }

/-- A morph start vector carrying a notes string. -/
def notedStart : AvatarParameters := { betas := [0], scales := [], notes := some "start state" }

/-- A notes-free morph end vector. -/
def plainEnd : AvatarParameters := { betas := [1], scales := [], notes := none }

/-! ### Dictionary lemmas -/

theorem dictGet_dictSet_self {α : Type} (d : PyDict α) (k : String) (v : α) :
    dictGet (dictSet d k v) k = some v := by
  induction d with
  | nil => simp [dictGet, dictSet]
  | cons e rest ih =>
    obtain ⟨k0, v0⟩ := e
    by_cases hk : k0 = k
    · simp [dictSet, dictGet, hk]
    · simp [dictSet, dictGet, hk, ih]

theorem dictGet_dictSet_ne {α : Type} (d : PyDict α) (k q : String) (v : α) (h : q ≠ k) :
    dictGet (dictSet d k v) q = dictGet d q := by
  have hkq : k ≠ q := fun hh => h hh.symm
  induction d with
  | nil => simp [dictGet, dictSet, hkq]
  | cons e rest ih =>
    obtain ⟨k0, v0⟩ := e
    by_cases hek : k0 = k
    · subst hek
      simp [dictSet, dictGet, hkq]
    · by_cases hq : k0 = q
      · subst hq
        simp [dictSet, dictGet, h, hek]
      · simp [dictSet, dictGet, hek, hq, ih]

theorem dictGet_eq_none_of_not_mem {α : Type} (d : PyDict α) (k : String)
    (h : k ∉ d.map Prod.fst) : dictGet d k = none := by
  induction d with
  | nil => simp [dictGet]
  | cons e rest ih =>
    obtain ⟨k0, v0⟩ := e
    simp only [List.map_cons, List.mem_cons] at h
    push_neg at h
    have hne : ¬ k0 = k := fun hh => h.1 hh.symm
    simp [dictGet, hne, ih h.2]

theorem find?_concat {α : Type} (l : List α) (a : α) (p : α → Bool) :
    (l ++ [a]).find? p =
      match l.find? p with
      | some x => some x
      | none => if p a then some a else none := by
  induction l with
  | nil =>
    by_cases h : p a
    · simp [List.find?, h]
    · simp [List.find?, h]
  | cons b l ih =>
    by_cases hb : p b
    · simp [List.find?_cons_of_pos _ hb]
    · simp only [List.cons_append, List.find?_cons_of_neg _ hb, ih]

theorem dictGet_foldl_dictSet {α : Type} (es : List (String × α)) (d : PyDict α) (k : String) :
    dictGet (es.foldl (fun acc e => dictSet acc e.1 e.2) d) k =
      match es.reverse.find? (fun e => e.1 == k) with
      | some e => some e.2
      | none => dictGet d k := by
  induction es generalizing d with
  | nil => simp [List.find?]
  | cons e rest ih =>
    simp only [List.foldl_cons, List.reverse_cons, ih, find?_concat]
    cases hfind : rest.reverse.find? (fun x => x.1 == k) with
    | some x => simp
    | none =>
      by_cases hk : e.1 = k
      · simp [hk, dictGet_dictSet_self]
      · simp only [beq_iff_eq, hk, if_false]
        exact dictGet_dictSet_ne d e.1 k e.2 (fun hh => hk hh.symm)

theorem dictGet_keyMap (keys : List String) (f : String → ℚ) (k : String) :
    dictGet (keys.map (fun x => (x, f x))) k = if k ∈ keys then some (f k) else none := by
  induction keys with
  | nil => simp [dictGet]
  | cons a keys ih =>
    by_cases ha : a = k
    · subst ha
      simp [dictGet]
    · have hka : k ≠ a := fun hh => ha hh.symm
      simp [dictGet, ha, ih, hka]

theorem mem_dedupKeys (l : List String) (k : String) : k ∈ dedupKeys l ↔ k ∈ l := by
  induction l with
  | nil => simp [dedupKeys]
  | cons a l ih =>
    simp only [dedupKeys, List.mem_cons]
    by_cases ha : a ∈ dedupKeys l
    · rw [if_pos ha, ih]
      constructor
      · exact Or.inr
      · rintro (rfl | h)
        · exact ih.mp ha
        · exact h
    · rw [if_neg ha]
      simp [List.mem_cons, ih]

/-! ### Clamping and interpolation lemmas -/

theorem clip_le_hi (x lo hi : ℚ) : clip x lo hi ≤ hi :=
  min_le_right _ _

theorem lo_le_clip (x lo hi : ℚ) (h : lo ≤ hi) : lo ≤ clip x lo hi :=
  le_min (le_max_right _ _) h

theorem betaSlot_lb (o : Option ℚ) (c s : ℚ) : -2 ≤ betaSlot o c s := by
  cases o with
  | none => norm_num [betaSlot]
  | some v => exact lo_le_clip _ _ _ (by norm_num)

theorem betaSlot_ub (o : Option ℚ) (c s : ℚ) : betaSlot o c s ≤ 2 := by
  cases o with
  | none => norm_num [betaSlot]
  | some v => exact clip_le_hi _ _ _

theorem zipWith_get?_eq {α β γ : Type} (f : α → β → γ) (as : List α) (bs : List β) (i : ℕ)
    (a : α) (b : β) (ha : as.get? i = some a) (hb : bs.get? i = some b) :
    (List.zipWith f as bs).get? i = some (f a b) := by
  induction as generalizing bs i with
  | nil => simp at ha
  | cons x as ih =>
    cases bs with
    | nil => simp at hb
    | cons y bs =>
      cases i with
      | zero =>
        simp only [List.get?] at ha hb
        injection ha with ha
        injection hb with hb
        subst ha
        subst hb
        rfl
      | succ i =>
        simp only [List.get?] at ha hb
        simpa [List.zipWith] using ih bs i ha hb

theorem zipWith_interp_zero (as bs : List ℚ) (h : as.length = bs.length) :
    List.zipWith (fun a b => a * (1 - (0:ℚ)) + b * (0:ℚ)) as bs = as := by
  induction as generalizing bs with
  | nil => simp
  | cons x as ih =>
    cases bs with
    | nil => simp at h
    | cons y bs =>
      simp only [List.length_cons, Nat.succ_inj] at h
      simp only [List.zipWith, List.cons.injEq]
      constructor
      · ring
      · exact ih bs h

theorem zipWith_interp_one (as bs : List ℚ) (h : as.length = bs.length) :
    List.zipWith (fun a b => a * (1 - (1:ℚ)) + b * (1:ℚ)) as bs = bs := by
  induction as generalizing bs with
  | nil =>
    cases bs with
    | nil => simp
    | cons y bs => simp at h
  | cons x as ih =>
    cases bs with
    | nil => simp at h
    | cons y bs =>
      simp only [List.length_cons, Nat.succ_inj] at h
      simp only [List.zipWith, List.cons.injEq]
      constructor
      · ring
      · exact ih bs h

theorem zipWith_interp_self (t : ℚ) (as : List ℚ) :
    List.zipWith (fun a b => a * (1 - t) + b * t) as as = as := by
  induction as with
  | nil => simp
  | cons x as ih =>
    simp only [List.zipWith, ih, List.cons.injEq, and_true]
    ring

theorem linspace01_eq (n : ℕ) (h : 2 ≤ n) :
    linspace01 n = (List.range n).map (fun (k : ℕ) => (k : ℚ) / ((n : ℚ) - 1)) := by
  have h0 : n ≠ 0 := by omega
  have h1 : n ≠ 1 := by omega
  simp [linspace01, h0, h1]

theorem linspace01_length (n : ℕ) (h : 2 ≤ n) : (linspace01 n).length = n := by
  rw [linspace01_eq n h]
  simp

theorem linspace01_get? (n k : ℕ) (h : 2 ≤ n) (hk : k < n) :
    (linspace01 n).get? k = some ((k : ℚ) / ((n : ℚ) - 1)) := by
  rw [linspace01_eq n h, List.get?_map, List.get?_range hk]
  rfl

theorem sub_one_ne_zero_of_two_le (n : ℕ) (h : 2 ≤ n) : ((n : ℚ) - 1) ≠ 0 := by
  have : (2:ℚ) ≤ (n:ℚ) := by exact_mod_cast h
  linarith

theorem last_linspace_t (n : ℕ) (h : 2 ≤ n) :
    (((n - 1 : ℕ) : ℚ) / ((n : ℚ) - 1)) = 1 := by
  have h1 : 1 ≤ n := by omega
  have hc : ((n - 1 : ℕ) : ℚ) = (n : ℚ) - 1 := by push_cast [h1]; ring
  rw [hc, div_self (sub_one_ne_zero_of_two_le n h)]

/-! ### Structure of interpolate_parameters outputs -/

theorem interpolate_eq_ok (A B : AvatarParameters) (n : ℕ)
    (h : A.betas.length = B.betas.length) :
    interpolate_parameters A B n = .ok ((linspace01 n).map (morphElem A B)) := by
  simp [interpolate_parameters, h]

theorem interpolate_getD (A B : AvatarParameters) (n : ℕ)
    (h : A.betas.length = B.betas.length) :
    (interpolate_parameters A B n).toOption.getD [] = (linspace01 n).map (morphElem A B) := by
  rw [interpolate_eq_ok A B n h]
  rfl

theorem notes_of_mem_interpolate (A B : AvatarParameters) (n : ℕ) (elem : AvatarParameters)
    (hm : elem ∈ (interpolate_parameters A B n).toOption.getD []) : elem.notes = none := by
  by_cases h : A.betas.length = B.betas.length
  · rw [interpolate_getD A B n h] at hm
    obtain ⟨t, _, rfl⟩ := List.mem_map.mp hm
    rfl
  · simp [interpolate_parameters, h, Except.toOption] at hm

theorem morphElem_scale_get (A B : AvatarParameters) (t : ℚ) (key : String) :
    scale_get (morphElem A B t).scales key =
      scale_get A.scales key * (1 - t) + scale_get B.scales key * t := by
  show scale_get ((morph_scale_keys A.scales B.scales).map
      (fun k => (k, scale_get A.scales k * (1 - t) + scale_get B.scales k * t))) key = _
  rw [scale_get, dictGet_keyMap]
  by_cases h : key ∈ morph_scale_keys A.scales B.scales
  · rw [if_pos h]
    rfl
  · rw [if_neg h]
    have hA : dictGet A.scales key = none :=
      dictGet_eq_none_of_not_mem _ _
        (fun hmem => h ((mem_dedupKeys _ _).mpr (List.mem_append.mpr (Or.inl hmem))))
    have hB : dictGet B.scales key = none :=
      dictGet_eq_none_of_not_mem _ _
        (fun hmem => h ((mem_dedupKeys _ _).mpr (List.mem_append.mpr (Or.inr hmem))))
    rw [scale_get, hA, scale_get, hB]
    show (1:ℚ) = 1 * (1 - t) + 1 * t
    ring

/-! ### Claim theorems -/

/-- Claim C7 (confirmed): buildMorphSequence (interpolate_parameters) with
mismatched coefficient-vector lengths raises ShapeMismatch (the ValueError of
morphing.py line 23) and produces no partial output: the result is the bare
error, carrying no sequence element. -/
theorem C7_shape_mismatch_raises (A B : AvatarParameters) (n : ℕ)
    (h : A.betas.length ≠ B.betas.length) :
    interpolate_parameters A B n = .error "Parameter vectors must have identical shapes" := by
  simp [interpolate_parameters, h]

/-- Witness for C7 at two concrete vectors of lengths 1 and 2. -/
theorem C7_witness :
    interpolate_parameters vec1 vec2 10 = .error "Parameter vectors must have identical shapes" :=
  C7_shape_mismatch_raises vec1 vec2 10 (by decide)

/-- Claim C8 (amended): interpolating a vector A with itself over steps n in
[2,120] succeeds and yields n elements, each with exactly A's coefficients and
A's scale overrides (looked up with default 1.0), but with an empty notes
field — so the elements are copies of A's numeric content, not necessarily
equal to A as a whole value. -/
theorem C8_self_interpolation (A : AvatarParameters) (n : ℕ) (h2 : 2 ≤ n) (h120 : n ≤ 120) :
    interpolate_parameters A A n = .ok ((interpolate_parameters A A n).toOption.getD []) ∧
    ((interpolate_parameters A A n).toOption.getD []).length = n ∧
    ∀ elem ∈ (interpolate_parameters A A n).toOption.getD [],
      elem.betas = A.betas ∧ (∀ key, scale_get elem.scales key = scale_get A.scales key) ∧
      elem.notes = none := by
  have hlen : A.betas.length = A.betas.length := rfl
  have hgd := interpolate_getD A A n hlen
  refine ⟨?_, ?_, ?_⟩
  · rw [hgd]
    exact interpolate_eq_ok A A n hlen
  · rw [hgd]
    simp [linspace01_length n h2]
  · intro elem hm
    rw [hgd] at hm
    obtain ⟨t, _, rfl⟩ := List.mem_map.mp hm
    refine ⟨?_, ?_, rfl⟩
    · exact zipWith_interp_self t A.betas
    · intro key
      rw [morphElem_scale_get]
      ring

/-- Witness for C8 at a concrete vector and steps = 2. -/
theorem C8_witness :
    ((interpolate_parameters selfScaled selfScaled 2).toOption.getD []).length = 2 :=
  (C8_self_interpolation selfScaled 2 (by decide) (by decide)).2.1

/-- Counterexample to C8 as stated: for a vector carrying a notes string the
output elements are not equal to it (each output drops notes to None), so the
call does not return literal copies of A. -/
theorem C8_not_literal_copies :
    interpolate_parameters selfNoted selfNoted 2 ≠ .ok [selfNoted, selfNoted] := by
  intro hEq
  have hall : ∀ elem ∈ (interpolate_parameters selfNoted selfNoted 2).toOption.getD [],
      elem.notes = none :=
    fun elem hm => notes_of_mem_interpolate selfNoted selfNoted 2 elem hm
  rw [hEq] at hall
  have hnotes := hall selfNoted (by simp [Except.toOption])
  simp [selfNoted] at hnotes

/-- Claim C6 (amended): for equal-length inputs and steps n in [2,120] the
morph sequence succeeds with exactly n elements; element k carries, at every
coefficient index, start*(1 - k/(n-1)) + end*(k/(n-1)); the first element has
exactly start's coefficients and start's scale overrides (looked up with
default 1.0), the last exactly end's; every element's notes field is empty
(so element 0 need not equal start as a whole value, see the
counterexample). -/
theorem C6_linear_interpolation (A B : AvatarParameters) (n : ℕ)
    (h2 : 2 ≤ n) (h120 : n ≤ 120) (hlen : A.betas.length = B.betas.length) :
    interpolate_parameters A B n = .ok ((interpolate_parameters A B n).toOption.getD []) ∧
    ((interpolate_parameters A B n).toOption.getD []).length = n ∧
    (∀ (k : ℕ) (elem : AvatarParameters),
      ((interpolate_parameters A B n).toOption.getD []).get? k = some elem →
      elem.notes = none ∧
      ∀ (i : ℕ) (a b : ℚ), A.betas.get? i = some a → B.betas.get? i = some b →
        elem.betas.get? i =
          some (a * (1 - (k : ℚ) / ((n : ℚ) - 1)) + b * ((k : ℚ) / ((n : ℚ) - 1)))) ∧
    (∀ elem : AvatarParameters,
      ((interpolate_parameters A B n).toOption.getD []).get? 0 = some elem →
      elem.betas = A.betas ∧ ∀ key, scale_get elem.scales key = scale_get A.scales key) ∧
    (∀ elem : AvatarParameters,
      ((interpolate_parameters A B n).toOption.getD []).get? (n - 1) = some elem →
      elem.betas = B.betas ∧ ∀ key, scale_get elem.scales key = scale_get B.scales key) := by
  have hgd := interpolate_getD A B n hlen
  refine ⟨?_, ?_, ?_, ?_, ?_⟩
  · rw [hgd]
    exact interpolate_eq_ok A B n hlen
  · rw [hgd]
    simp [linspace01_length n h2]
  · intro k elem hk
    rw [hgd] at hk
    have hklen : k < n := by
      by_contra hge
      push_neg at hge
      rw [List.get?_eq_none.mpr (by simp [linspace01_length n h2, hge])] at hk
      cases hk
    rw [List.get?_map, linspace01_get? n k h2 hklen] at hk
    simp only [Option.map_some'] at hk
    injection hk with hk
    subst hk
    refine ⟨rfl, ?_⟩
    intro i a b ha hb
    exact zipWith_get?_eq _ A.betas B.betas i a b ha hb
  · intro elem h0
    rw [hgd] at h0
    have h0n : (0:ℕ) < n := by omega
    rw [List.get?_map, linspace01_get? n 0 h2 h0n] at h0
    simp only [Option.map_some'] at h0
    injection h0 with h0
    subst h0
    have ht : ((0:ℕ) : ℚ) / ((n : ℚ) - 1) = 0 := by
      simp
    constructor
    · show List.zipWith _ A.betas B.betas = A.betas
      simp only [ht]
      exact zipWith_interp_zero A.betas B.betas hlen
    · intro key
      rw [morphElem_scale_get, ht]
      ring
  · intro elem hL
    rw [hgd] at hL
    have hLn : n - 1 < n := by omega
    rw [List.get?_map, linspace01_get? n (n - 1) h2 hLn] at hL
    simp only [Option.map_some'] at hL
    injection hL with hL
    subst hL
    have ht := last_linspace_t n h2
    constructor
    · show List.zipWith _ A.betas B.betas = B.betas
      simp only [ht]
      exact zipWith_interp_one A.betas B.betas hlen
    · intro key
      rw [morphElem_scale_get, ht]
      ring

/-- Witness for C6 at two concrete equal-length vectors and steps = 2. -/
theorem C6_witness :
    ((interpolate_parameters morphA morphB 2).toOption.getD []).length = 2 :=
  (C6_linear_interpolation morphA morphB 2 (by decide) (by decide) rfl).2.1

/-- Counterexample to C6 as stated: when start carries a notes string, the
morph succeeds (2 elements) but its first element is not equal to start (the
element's notes field is empty), refuting "whose first element equals
start". -/
theorem C6_first_element_differs :
    ((interpolate_parameters notedStart plainEnd 2).toOption.getD []).length = 2 ∧
    ((interpolate_parameters notedStart plainEnd 2).toOption.getD []).get? 0 ≠
      some notedStart := by
  have hlen : notedStart.betas.length = plainEnd.betas.length := rfl
  have hgd := interpolate_getD notedStart plainEnd 2 hlen
  constructor
  · rw [hgd]
    simp [linspace01_length 2 (by norm_num)]
  · intro hk
    have hm : notedStart ∈ (interpolate_parameters notedStart plainEnd 2).toOption.getD [] :=
      List.get?_mem hk
    have hnotes := notes_of_mem_interpolate notedStart plainEnd 2 notedStart hm
    simp [notedStart] at hnotes

theorem derived_overall_some (b : DexaBodyMetrics) (h w : ℚ)
    (hh : b.height_cm = some h) (hw : b.weight_kg = some w) (h0 : h ≠ 0) (w0 : w ≠ 0) :
    derived_overall b = some (clip (4/5 + (w / ((h / 100) ^ 2) - 20) / 30) (7/10) (13/10)) := by
  simp [derived_overall, hh, hw, h0, w0]

theorem scales_of_map (d : DexaScanData) (ext : Option (PyDict ℚ)) (v : ℚ)
    (hd : derived_overall d.body_metrics = some v) :
    (map_metrics_to_parameters d ext).scales = dictSet (pyOrEmpty ext) "overall" v := by
  simp [map_metrics_to_parameters, hd]

/-- Claim C1 (amended): when height and weight are present (and nonzero), the
synthesizer derives the "overall" scale from the BMI-style ratio clamped to
[0.7, 1.3] and writes it into the scale-override mapping, overwriting an
externally supplied "overall" (derived value takes precedence, not the
pass-through); every other externally supplied key is preserved. -/
theorem C1_derived_overall_overwrites (d : DexaScanData) (e : PyDict ℚ) (h w : ℚ)
    (hh : d.body_metrics.height_cm = some h) (hw : d.body_metrics.weight_kg = some w)
    (h0 : h ≠ 0) (w0 : w ≠ 0) :
    dictGet (map_metrics_to_parameters d (some e)).scales "overall" =
      some (clip (4/5 + (w / ((h / 100) ^ 2) - 20) / 30) (7/10) (13/10)) ∧
    (7/10 : ℚ) ≤ clip (4/5 + (w / ((h / 100) ^ 2) - 20) / 30) (7/10) (13/10) ∧
    clip (4/5 + (w / ((h / 100) ^ 2) - 20) / 30) (7/10) (13/10) ≤ 13/10 ∧
    ∀ k, k ≠ "overall" →
      dictGet (map_metrics_to_parameters d (some e)).scales k = dictGet e k := by
  have hd := derived_overall_some d.body_metrics h w hh hw h0 w0
  have hs := scales_of_map d (some e) _ hd
  refine ⟨?_, lo_le_clip _ _ _ (by norm_num), clip_le_hi _ _ _, ?_⟩
  · rw [hs]
    exact dictGet_dictSet_self e "overall" _
  · intro k hk
    rw [hs]
    exact dictGet_dictSet_ne e "overall" k _ hk

/-- Witness for C1: an externally supplied "arms" key passes through. -/
theorem C1_witness :
    dictGet (map_metrics_to_parameters recHW (some [("arms", 2), ("overall", 9)])).scales
      "arms" = some 2 := by
  rw [(C1_derived_overall_overwrites recHW [("arms", 2), ("overall", 9)] 170 70 rfl rfl
    (by norm_num) (by norm_num)).2.2.2 "arms" (by decide)]
  decide

/-- Counterexample to C1 as stated: with height 170 and weight 70, an external
override "overall" = 5 is not preserved in the result (the derived value,
which is at most 1.3, replaces it). -/
theorem C1_external_overall_not_preserved :
    dictGet (map_metrics_to_parameters recHW (some [("overall", 5)])).scales "overall" ≠
      some 5 := by
  have hd := derived_overall_some recHW.body_metrics 170 70 rfl rfl (by norm_num) (by norm_num)
  have hs := scales_of_map recHW (some [("overall", 5)]) _ hd
  rw [hs, dictGet_dictSet_self]
  intro hEq
  injection hEq with hEq
  have hle := clip_le_hi (4/5 + ((70:ℚ) / (((170:ℚ) / 100) ^ 2) - 20) / 30) (7/10) (13/10)
  rw [hEq] at hle
  norm_num at hle

/-- Claim C4 (amended): the synthesizer does not mutate the ScanRecord, and
leaves the override mapping untouched when it is missing, empty, or when no
"overall" scale is derived; but when the mapping is non-empty and height and
weight are both present (nonzero), the mapping is mutated in place: the
derived "overall" entry is written into the caller's dict. -/
theorem C4_overrides_mutated_in_place (d : DexaScanData) (e : PyDict ℚ) :
    body_scale_adjustments_after d none = none ∧
    (e = [] → body_scale_adjustments_after d (some e) = some e) ∧
    (derived_overall d.body_metrics = none → body_scale_adjustments_after d (some e) = some e) ∧
    (∀ v : ℚ, e ≠ [] → derived_overall d.body_metrics = some v →
      body_scale_adjustments_after d (some e) = some (dictSet e "overall" v)) := by
  refine ⟨rfl, ?_, ?_, ?_⟩
  · intro h
    simp [body_scale_adjustments_after, h]
  · intro h
    by_cases he : e = []
    · simp [body_scale_adjustments_after, he]
    · simp [body_scale_adjustments_after, he, h]
  · intro v he hd
    simp [body_scale_adjustments_after, he, hd]

/-- Witness for C4: a non-empty override mapping gains the derived "overall"
entry. -/
theorem C4_witness :
    body_scale_adjustments_after recHW (some [("arms", 2)]) =
      some (dictSet [("arms", 2)] "overall"
        (clip (4/5 + ((70:ℚ) / (((170:ℚ) / 100) ^ 2) - 20) / 30) (7/10) (13/10))) :=
  (C4_overrides_mutated_in_place recHW [("arms", 2)]).2.2.2 _ (by decide)
    (derived_overall_some recHW.body_metrics 170 70 rfl rfl (by norm_num) (by norm_num))

/-- Counterexample to C4 as stated: for a record with height and weight and a
non-empty override mapping, the caller's mapping is not equal to its pre-call
value after the call (it gained the "overall" key). -/
theorem C4_caller_dict_changed :
    body_scale_adjustments_after recHW (some [("arms", 2)]) ≠ some [("arms", 2)] := by
  intro hEq
  have hd := derived_overall_some recHW.body_metrics 170 70 rfl rfl (by norm_num) (by norm_num)
  simp [body_scale_adjustments_after, hd, dictSet] at hEq

/-- Claim C5 (confirmed): synthesizeParameters always returns exactly 10
coefficients, each in [-2, 2]; a slot whose source field is absent is 0; a
record with every body metric and region absent yields the all-zero
vector. -/
theorem C5_ten_clamped_coefficients (d : DexaScanData) (ext : Option (PyDict ℚ)) :
    (map_metrics_to_parameters d ext).betas.length = 10 ∧
    (∀ x ∈ (map_metrics_to_parameters d ext).betas, -2 ≤ x ∧ x ≤ 2) ∧
    (∀ i : ℕ, i < 10 → slotSource d i = none →
      (map_metrics_to_parameters d ext).betas.get? i = some 0) ∧
    (d.body_metrics = emptyBodyMetrics → d.regions = [] →
      (map_metrics_to_parameters d ext).betas = List.replicate 10 0) := by
  have hb : (map_metrics_to_parameters d ext).betas = betasOf d := rfl
  refine ⟨?_, ?_, ?_, ?_⟩
  · rw [hb, betasOf]
    rfl
  · rw [hb]
    intro x hx
    simp only [betasOf, List.mem_cons, List.not_mem_nil, or_false] at hx
    rcases hx with rfl|rfl|rfl|rfl|rfl|rfl|rfl|rfl|rfl|rfl <;>
      exact ⟨betaSlot_lb _ _ _, betaSlot_ub _ _ _⟩
  · intro i hi hsrc
    rw [hb]
    interval_cases i <;>
      · simp only [slotSource] at hsrc
        simp [betasOf, hsrc, betaSlot]
  · intro hbm hreg
    rw [hb]
    simp [betasOf, hbm, hreg, emptyBodyMetrics, region_fat, dictGet, betaSlot, List.replicate]

/-- Witness for C5: the all-absent record yields the all-zero 10-vector. -/
theorem C5_witness :
    (map_metrics_to_parameters emptyRecord none).betas = List.replicate 10 0 :=
  (C5_ten_clamped_coefficients emptyRecord none).2.2.2 rfl rfl

theorem region_metrics_error_is_validation (text : String) (e : PyFailure)
    (h : _extract_region_metrics text = .error e) : e = .validationError := by
  by_cases hv : (region_entries text).all (fun x => validRegion x.2)
  · rw [_extract_region_metrics, if_pos hv] at h
    cases h
  · rw [_extract_region_metrics, if_neg hv] at h
    injection h with h
    exact h.symm

/-- Claim C2 (amended): parse_pdf_bytes raises a DexaParserError exactly when
the recovered text is blank ("Unable to read text from PDF") or when every
extracted whole-body field is Python-falsy, i.e. absent or equal to 0
("Failed to extract primary DEXA metrics"); matched regions do not prevent
the second failure, and when some field holds a nonzero value no
DexaParserError is raised (though a pydantic ValidationError still can
be). -/
theorem C2_extraction_failure_iff (text : String) :
    parserErrorMsg (parse_pdf_bytes text) =
      (if stripChars text.data = [] then some "Unable to read text from PDF"
       else if anyMetric (extractBody text) then none
       else some "Failed to extract primary DEXA metrics") := by
  by_cases hb : stripChars text.data = []
  · simp [parse_pdf_bytes, hb, parserErrorMsg]
  · by_cases ha : anyMetric (extractBody text)
    · rw [if_neg hb, if_pos ha]
      simp only [parse_pdf_bytes, if_neg hb, ha, if_true]
      cases hr : _extract_region_metrics text with
      | error e =>
        have he := region_metrics_error_is_validation text e hr
        subst he
        simp [hr, parserErrorMsg]
      | ok regions =>
        by_cases hvb : validBody (extractBody text)
        · simp [hr, hvb, parserErrorMsg]
        · simp [hr, hvb, parserErrorMsg]
    · simp [parse_pdf_bytes, hb, ha, parserErrorMsg]

/-- Counterexample to C2 as stated: the text "Arms\t20" matches the arms
region (one region entry) and extracts no whole-body field, yet
parse_pdf_bytes does raise ExtractionFailure — refuting "when no whole-body
field but at least one region matched, no ExtractionFailure is raised". -/
theorem C2_region_match_still_fails :
    parse_pdf_bytes "Arms\t20" =
      .error (.dexaParserError "Failed to extract primary DEXA metrics") ∧
    region_entries "Arms\t20" = [("arms", armsFat20)] ∧
    extractBody "Arms\t20" = emptyBodyMetrics := by
  decide

/-- Claim C3 (code bug): the extraction step itself applies no range check —
the pattern captures 95 for a total fat percent — but assembling the record
fails: DexaBodyMetrics(**body_kwargs) inside parse_pdf_bytes raises a
pydantic ValidationError for 95 > 80 (models.py line 25), so, contrary to the
spec and to the repo's own test_parameter_clamping (which builds
DexaBodyMetrics with out-of-range values and expects the synthesizer's
clamping to absorb them), the out-of-range value is never carried into a
ScanRecord. -/
theorem C3_out_of_range_rejected_at_assembly :
    _extract_first patTotalFat "total body fat % 95" = some 95 ∧
    parse_pdf_bytes "total body fat % 95" = .error .validationError := by
  decide

/-- Claim C9 (confirmed): the region dict built by _extract_region_metrics
maps every key to the metrics of the last line that produced an entry for
that key (region_entries lists the per-line entries in line order, so the
find? over the reversed list is exactly the last matching line). -/
theorem C9_last_match_wins (text : String) (regions : PyDict DexaRegionMetrics)
    (h : _extract_region_metrics text = .ok regions) (key : String) :
    dictGet regions key =
      ((region_entries text).reverse.find? (fun e => e.1 == key)).map Prod.snd := by
  have hreg : regions = (region_entries text).foldl (fun d e => dictSet d e.1 e.2) [] := by
    by_cases hv : (region_entries text).all (fun x => validRegion x.2)
    · rw [_extract_region_metrics, if_pos hv] at h
      injection h with h
      exact h.symm
    · rw [_extract_region_metrics, if_neg hv] at h
      cases h
  rw [hreg, dictGet_foldl_dictSet]
  cases hf : (region_entries text).reverse.find? (fun e => e.1 == key) <;> simp [hf, dictGet]

/-- Witness for C9: two lines "Arms\t10" and "Arms\t20" leave fat percent 20
under "arms". -/
theorem C9_witness :
    dictGet [("arms", armsFat20)] "arms" =
      ((region_entries "Arms\t10\nArms\t20").reverse.find? (fun e => e.1 == "arms")).map
        Prod.snd :=
  C9_last_match_wins "Arms\t10\nArms\t20" [("arms", armsFat20)] (by decide) "arms"

/-- Claim C10 (confirmed): the extractor keys an entry by the entire
lowercased first token ("android region", not "android"), the synthesizer
reads regions only at the five exact names, and an entry under any other key
leaves the synthesized parameters unchanged. -/
theorem C10_noncanonical_keys_inert :
    _extract_region_metrics "Android Region\t35" = .ok [("android region", androidRegion35)] ∧
    dictContains [("android region", androidRegion35)] "android" = false ∧
    ∀ (d : DexaScanData) (ext : Option (PyDict ℚ)) (key : String) (v : DexaRegionMetrics),
      key ∉ ["android", "gynoid", "arms", "legs", "trunk"] →
      map_metrics_to_parameters
          { body_metrics := d.body_metrics, regions := dictSet d.regions key v } ext =
        map_metrics_to_parameters d ext := by
  refine ⟨by decide, by decide, ?_⟩
  intro d ext key v hk
  simp only [List.mem_cons, List.not_mem_nil, or_false, not_or] at hk
  obtain ⟨h1, h2, h3, h4, h5⟩ := hk
  have r1 : region_fat (dictSet d.regions key v) "android" = region_fat d.regions "android" := by
    rw [region_fat, region_fat,
      dictGet_dictSet_ne d.regions key "android" v (fun hh => h1 hh.symm)]
  have r2 : region_fat (dictSet d.regions key v) "gynoid" = region_fat d.regions "gynoid" := by
    rw [region_fat, region_fat,
      dictGet_dictSet_ne d.regions key "gynoid" v (fun hh => h2 hh.symm)]
  have r3 : region_fat (dictSet d.regions key v) "arms" = region_fat d.regions "arms" := by
    rw [region_fat, region_fat,
      dictGet_dictSet_ne d.regions key "arms" v (fun hh => h3 hh.symm)]
  have r4 : region_fat (dictSet d.regions key v) "legs" = region_fat d.regions "legs" := by
    rw [region_fat, region_fat,
      dictGet_dictSet_ne d.regions key "legs" v (fun hh => h4 hh.symm)]
  have r5 : region_fat (dictSet d.regions key v) "trunk" = region_fat d.regions "trunk" := by
    rw [region_fat, region_fat,
      dictGet_dictSet_ne d.regions key "trunk" v (fun hh => h5 hh.symm)]
  simp only [map_metrics_to_parameters, betasOf, r1, r2, r3, r4, r5]

/-- Witness for C10: adding the "android region" entry to a record leaves the
synthesized parameters unchanged. -/
theorem C10_witness :
    map_metrics_to_parameters
        { body_metrics := recHW.body_metrics,
          regions := dictSet recHW.regions "android region" androidRegion35 } none =
      map_metrics_to_parameters recHW none :=
  C10_noncanonical_keys_inert.2.2 recHW none "android region" androidRegion35 (by decide)
